import Mathlib

/-!
Verification of the semdag morphism algebra (src/index.ts).

The embedding is shallow: runtime values flow through a single value
universe `V` (the TypeScript code is untyped at runtime), morphism mapping
and inverse functions become Lean functions, and the reference identity of
a Zod schema object (the TS code compares `first.target.schema !==
second.source.schema`) is modelled by a numeric token stored in the
`schema` field: two schema fields denote the identical runtime object
exactly when their tokens coincide. Fallible operations return
`Except`/`Result` exactly where the source throws or returns a `Result`.
-/

namespace Semdag

/-- The `Type<T>` descriptor of src/index.ts: a name, a Zod schema
(represented by its reference-identity token, the only way the schema is
used in src/index.ts is the `!==` comparison in `compose`), and a semantic
equality predicate. Named `Ty` because `Type` is reserved in Lean. -/
structure Ty (V : Type) where
  name : String
  schema : Nat
  equals : V → V → Bool

/-- The `Morphism<A,B>` union of src/index.ts: basic, reversible and
composed variants, each carrying `map`, `source` and `target`; the
reversible variant additionally stores `inverse`, the composed variant
stores its two components `first` and `second`. -/
inductive Morphism (V : Type) where
  | basic (map : V → V) (source target : Ty V)
  | reversible (map : V → V) (source target : Ty V) (inverse : V → V)
  | composed (map : V → V) (source target : Ty V) (first second : Morphism V)

/-- The `kind` discriminant tag of each variant. -/
def Morphism.kind {V : Type} : Morphism V → String
  | .basic .. => "basic"
  | .reversible .. => "reversible"
  | .composed .. => "composed"

/-- The `map` field common to all three variants. -/
def Morphism.map {V : Type} : Morphism V → V → V
  | .basic f _ _, a => f a
  | .reversible f _ _ _, a => f a
  | .composed f _ _ _ _, a => f a

/-- The `source` field common to all three variants. -/
def Morphism.source {V : Type} : Morphism V → Ty V
  | .basic _ s _ => s
  | .reversible _ s _ _ => s
  | .composed _ s _ _ _ => s

/-- The `target` field common to all three variants. -/
def Morphism.target {V : Type} : Morphism V → Ty V
  | .basic _ _ t => t
  | .reversible _ _ t _ => t
  | .composed _ _ t _ _ => t

/-- `reversibleMorphism(source, target, forward, backward)` of src/index.ts. -/
def reversibleMorphism {V : Type} (source target : Ty V)
    (forward backward : V → V) : Morphism V :=
  .reversible forward source target backward

/-- `morphism(source, target, forward)` of src/index.ts. -/
def morphism {V : Type} (source target : Ty V) (forward : V → V) : Morphism V :=
  .basic forward source target

/-- The error message thrown by `compose` on incompatible schemas
(src/index.ts lines 66-68), template holes filled by concatenation. -/
def composeErrorMsg {V : Type} (first second : Morphism V) : String :=
  "Cannot compose morphisms: Incompatible types.\n            First morphism target type: "
    ++ first.target.name
    ++ "\n            Second morphism source type: " ++ second.source.name

/-- `compose(first, second)` of src/index.ts: throws (here: `Except.error`)
when `first.target.schema !== second.source.schema`, otherwise returns the
composed morphism with the functionally composed `map`, `first.source` as
source, `second.target` as target, and the two components retained. -/
def compose {V : Type} (first second : Morphism V) : Except String (Morphism V) :=
  if first.target.schema != second.source.schema then
    .error (composeErrorMsg first second)
  else
    .ok (.composed (fun a => second.map (first.map a))
          first.source second.target first second)

/-- `isReversible(m)` of src/index.ts: `m.kind === 'reversible'`. -/
def isReversible {V : Type} (m : Morphism V) : Bool :=
  m.kind == "reversible"

/-- `inverseOf(m)` of src/index.ts: the stored inverse for the reversible
variant, `undefined` (here `none`) otherwise. -/
def inverseOf {V : Type} : Morphism V → Option (V → V)
  | .reversible _ _ _ inv => some inv
  | _ => none

/-- `checkReversibility(m, testValue)` of src/index.ts: false when
`inverseOf` yields nothing, otherwise the round-trip equality under the
source type's `equals`. -/
def checkReversibility {V : Type} (m : Morphism V) (testValue : V) : Bool :=
  match inverseOf m with
  | none => false
  | some inv => m.source.equals testValue (inv (m.map testValue))

/-- The `Result<T,E>` discriminated union of src/index.ts. -/
inductive Result (T E : Type) where
  | success (value : T)
  | failure (error : E)
deriving DecidableEq

/-- The failure message used by `_reverseComposed` for a non-reversible
component (src/index.ts lines 122 and 128). -/
def withinCompositionMsg {V : Type} (m : Morphism V) : String :=
  "Morphism \"" ++ m.source.name ++ " -> " ++ m.target.name
    ++ "\" within composition is not reversible"

/-- `_reverseComposed(m, value)` of src/index.ts, taking the composed
morphism's `first` and `second` fields (the only fields it reads). The
source guards with `isReversible(m.second)` then `isReversible(m.first)`
(failing with the corresponding message, second checked first) and then
reads the components' `inverse` fields through unchecked casts; matching
on the reversible constructor expresses exactly those guarded reads. -/
def _reverseComposed {V : Type} (first second : Morphism V) (value : V) :
    Result V String :=
  match second with
  | .reversible _ _ _ inv2 =>
    match first with
    | .reversible _ _ _ inv1 => .success (inv1 (inv2 value))
    | _ => .failure (withinCompositionMsg first)
  | _ => .failure (withinCompositionMsg second)

/-- `reverse(m, value)` of src/index.ts: dispatch on the variant tag. -/
def reverse {V : Type} (m : Morphism V) (value : V) : Result V String :=
  match m with
  | .reversible _ _ _ inv => .success (inv value)
  | .composed _ _ _ first second => _reverseComposed first second value
  | .basic _ source target =>
      .failure ("Morphism \"" ++ source.name ++ " -> " ++ target.name
        ++ "\" is not reversible")

/-! Concrete fixtures used by counterexamples and witnesses. `natTy` and
`natTy2` are two distinct Type descriptor objects (their names differ)
sharing the identical schema object (the same token 0); `otherTy` wraps an
independently constructed schema object (token 1). -/

def natTy : Ty Nat := { name := "Number", schema := 0, equals := fun a b => a == b }

def natTy2 : Ty Nat := { name := "Number2", schema := 0, equals := fun a b => a == b }

def otherTy : Ty Nat := { name := "Other", schema := 1, equals := fun a b => a == b }

def addOne : Morphism Nat :=
  .reversible (fun n => n + 1) natTy natTy (fun n => n - 1)

def double : Morphism Nat :=
  .reversible (fun n => n * 2) natTy natTy (fun n => n / 2)

def absM : Morphism Nat := .basic (fun n => n) natTy natTy

def squareM : Morphism Nat := .basic (fun n => n * n) natTy natTy

def toNat2 : Morphism Nat := .basic (fun n => n) natTy natTy2

def toOther : Morphism Nat := .basic (fun n => n) natTy otherTy

def fromOther : Morphism Nat := .basic (fun n => n) otherTy natTy

def composedAD : Morphism Nat :=
  .composed (fun a => double.map (addOne.map a)) natTy natTy addOne double

/-- C8: reversing a reversible-variant morphism always succeeds with the
stored inverse applied to the value. -/
theorem reverse_reversible {V : Type} (f i : V → V) (s t : Ty V) (v : V) :
    reverse (Morphism.reversible f s t i) v = Result.success (i v) := rfl

/-- C9: reversing a basic-variant morphism always returns a failure Result
(no exception channel exists: `reverse` is total into `Result`) whose
diagnostic names `source.name -> target.name` as not reversible. -/
theorem reverse_basic {V : Type} (f : V → V) (s t : Ty V) (v : V) :
    reverse (Morphism.basic f s t) v
      = Result.failure ("Morphism \"" ++ s.name ++ " -> " ++ t.name
          ++ "\" is not reversible") := rfl

/-- C5: `checkReversibility` evaluates the round-trip equality
`m.source.equals(v, inverse(m.map(v)))` exactly when `m` is directly the
reversible variant, and returns false for every basic and every composed
morphism (composed morphisms, however invertible, are never supported). -/
theorem checkReversibility_spec {V : Type} (v : V) :
    (∀ (f i : V → V) (s t : Ty V),
        checkReversibility (Morphism.reversible f s t i) v
          = s.equals v (i (f v)))
    ∧ (∀ (f : V → V) (s t : Ty V),
        checkReversibility (Morphism.basic f s t) v = false)
    ∧ (∀ (mp : V → V) (s t : Ty V) (a b : Morphism V),
        checkReversibility (Morphism.composed mp s t a b) v = false) :=
  ⟨fun _ _ _ _ => rfl, fun _ _ _ => rfl, fun _ _ _ _ _ => rfl⟩

/-- C6: `isReversible` is true exactly on the reversible variant tag; in
particular a composed morphism whose two components are both reversible is
itself still reported as not reversible. -/
theorem isReversible_iff {V : Type} (m : Morphism V) :
    (isReversible m = true
      ↔ ∃ (f : V → V) (s t : Ty V) (i : V → V),
          m = Morphism.reversible f s t i)
    ∧ ∀ (mp f1 i1 f2 i2 : V → V) (s t s1 t1 s2 t2 : Ty V),
        isReversible (Morphism.composed mp s t
          (Morphism.reversible f1 s1 t1 i1)
          (Morphism.reversible f2 s2 t2 i2)) = false := by
  constructor
  · constructor
    · intro h
      cases m with
      | basic f s t => simp [isReversible, Morphism.kind] at h
      | reversible f s t i => exact ⟨f, s, t, i, rfl⟩
      | composed mp s t a b => simp [isReversible, Morphism.kind] at h
    · rintro ⟨f, s, t, i, rfl⟩
      rfl
  · intro mp f1 i1 f2 i2 s t s1 t1 s2 t2
    rfl

/-- C7: `inverseOf` returns exactly the stored inverse function for the
reversible variant and `undefined` (here `none`) for the basic and the
composed variant, whatever the composed components are. -/
theorem inverseOf_spec {V : Type} :
    (∀ (f i : V → V) (s t : Ty V),
        inverseOf (Morphism.reversible f s t i) = some i)
    ∧ (∀ (f : V → V) (s t : Ty V), inverseOf (Morphism.basic f s t) = none)
    ∧ (∀ (mp : V → V) (s t : Ty V) (a b : Morphism V),
        inverseOf (Morphism.composed mp s t a b) = none) :=
  ⟨fun _ _ _ _ => rfl, fun _ _ _ => rfl, fun _ _ _ _ _ => rfl⟩

/-- C1 (counterexample): `toNat2.target` (= `natTy2`) and `addOne.source`
(= `natTy`) are distinct Type descriptor objects, yet `compose` succeeds,
because their `schema` fields reference the identical schema object. So
the claim that `compose` fails whenever the two Types are distinct objects
is false. -/
theorem compose_typeIdentity_counterexample :
    toNat2.target ≠ addOne.source ∧ (compose toNat2 addOne).isOk = true := by
  constructor
  · intro h
    have hn := congrArg Ty.name h
    simp [toNat2, addOne, natTy, natTy2, Morphism.target, Morphism.source] at hn
  · rfl

/-- C1 (amended): `compose(first, second)` raises the hard error (naming
both morphisms' declared type names) if and only if `first.target.schema`
and `second.source.schema` are not the identical schema object by
reference; distinct Type descriptor objects sharing the identical schema
object compose successfully. -/
theorem compose_error_iff_schema_ne {V : Type} (first second : Morphism V) :
    ((compose first second).isOk
      = (first.target.schema == second.source.schema))
    ∧ (first.target.schema ≠ second.source.schema →
        compose first second = Except.error (composeErrorMsg first second)) := by
  constructor
  · unfold compose
    by_cases h : first.target.schema = second.source.schema
    · simp [h, Except.isOk, Except.toBool]
    · simp [h, Except.isOk, Except.toBool, beq_eq_false_iff_ne, Ne]
  · intro h
    unfold compose
    simp [h]

/-- C1 (amended) witness: at `addOne` and `fromOther` the schema tokens
differ, so `compose` returns the error carrying both type names. -/
theorem compose_error_iff_schema_ne_witness :
    ((compose addOne fromOther).isOk
      = (addOne.target.schema == fromOther.source.schema))
    ∧ compose addOne fromOther
        = Except.error (composeErrorMsg addOne fromOther) :=
  ⟨(compose_error_iff_schema_ne addOne fromOther).1,
   (compose_error_iff_schema_ne addOne fromOther).2 (by decide)⟩

/-- C3: when `compose(first, second)` succeeds, the returned morphism maps
every `a` to `second.map(first.map(a))`, has `first.source` as source and
`second.target` as target, and retains `first` and `second` themselves as
its two components. -/
theorem compose_ok_structure {V : Type} (first second m : Morphism V)
    (hm : compose first second = Except.ok m) :
    (∀ a, m.map a = second.map (first.map a))
    ∧ m.source = first.source
    ∧ m.target = second.target
    ∧ m = Morphism.composed (fun a => second.map (first.map a))
        first.source second.target first second := by
  unfold compose at hm
  split at hm
  · exact absurd hm (by simp)
  · cases hm
    exact ⟨fun _ => rfl, rfl, rfl, rfl⟩

/-- C3 witness: `compose addOne double` succeeds and yields `composedAD`,
which maps 5 to 12 = double(addOne(5)) and inherits source and target. -/
theorem compose_ok_structure_witness :
    composedAD.map 5 = 12
    ∧ composedAD.source = natTy
    ∧ composedAD.target = natTy :=
  ⟨(compose_ok_structure addOne double composedAD rfl).1 5,
   (compose_ok_structure addOne double composedAD rfl).2.1,
   (compose_ok_structure addOne double composedAD rfl).2.2.1⟩

/-- C2: reversing a morphism obtained by composing two reversible-variant
morphisms succeeds and applies the inverses right-to-left: the second
component's inverse recovers the intermediate value and the first
component's inverse is applied to it. -/
theorem reverse_compose_reversible {V : Type} (fmap gmap fi gi : V → V)
    (fs ft gs gt : Ty V) (m : Morphism V) (v : V)
    (hm : compose (Morphism.reversible fmap fs ft fi)
            (Morphism.reversible gmap gs gt gi) = Except.ok m) :
    reverse m v = Result.success (fi (gi v)) := by
  unfold compose at hm
  split at hm
  · exact absurd hm (by simp)
  · cases hm
    rfl

/-- C2 witness: `compose addOne double` succeeds, and reversing the result
at 10 halves then decrements: success 4. -/
theorem reverse_compose_reversible_witness :
    reverse composedAD 10 = Result.success 4 :=
  reverse_compose_reversible (fun n => n + 1) (fun n => n * 2)
    (fun n => n - 1) (fun n => n / 2) natTy natTy natTy natTy composedAD 10 rfl

/-- C4: reversing a composed morphism with at least one non-reversible
immediate component (judged by the variant tag alone) fails, and the
failure message names a side that is indeed non-reversible, by its source
and target type names. -/
theorem reverse_composed_nonreversible {V : Type} (mp : V → V) (s t : Ty V)
    (first second : Morphism V) (v : V)
    (h : isReversible first = false ∨ isReversible second = false) :
    (reverse (Morphism.composed mp s t first second) v
        = Result.failure (withinCompositionMsg second)
      ∧ isReversible second = false)
    ∨ (reverse (Morphism.composed mp s t first second) v
        = Result.failure (withinCompositionMsg first)
      ∧ isReversible first = false) := by
  cases second with
  | reversible f2 s2 t2 i2 =>
    cases first with
    | reversible f1 s1 t1 i1 => simp [isReversible, Morphism.kind] at h
    | basic f1 s1 t1 => exact Or.inr ⟨rfl, rfl⟩
    | composed mp1 s1 t1 a1 b1 => exact Or.inr ⟨rfl, rfl⟩
  | basic f2 s2 t2 => exact Or.inl ⟨rfl, rfl⟩
  | composed mp2 s2 t2 a2 b2 => exact Or.inl ⟨rfl, rfl⟩

/-- C4 witness: the composition holding the basic `absM` before the
reversible `addOne` fails to reverse, naming `absM`, the non-reversible
side. -/
theorem reverse_composed_nonreversible_witness :
    (reverse (Morphism.composed Nat.succ natTy natTy absM addOne) 5
        = Result.failure (withinCompositionMsg addOne)
      ∧ isReversible addOne = false)
    ∨ (reverse (Morphism.composed Nat.succ natTy natTy absM addOne) 5
        = Result.failure (withinCompositionMsg absM)
      ∧ isReversible absM = false) :=
  reverse_composed_nonreversible Nat.succ natTy natTy absM addOne 5
    (Or.inl (by decide))

/-- C10: whenever the second (right-hand) component of a composed morphism
is not the reversible variant, `reverse` fails naming the second
component's source and target names, regardless of what the first
component is — the second side is checked before the first. -/
theorem reverse_composed_second_checked_first {V : Type} (mp : V → V)
    (s t : Ty V) (first second : Morphism V) (v : V)
    (h : isReversible second = false) :
    reverse (Morphism.composed mp s t first second) v
      = Result.failure (withinCompositionMsg second) := by
  cases second with
  | reversible f2 s2 t2 i2 => simp [isReversible, Morphism.kind] at h
  | basic f2 s2 t2 => rfl
  | composed mp2 s2 t2 a2 b2 => rfl

/-- C10 witness: with both components non-reversible (`absM`, `squareM`),
the failure names only the second component, `squareM`. -/
theorem reverse_composed_second_checked_first_witness :
    isReversible absM = false
    ∧ reverse (Morphism.composed Nat.succ natTy natTy absM squareM) 7
        = Result.failure (withinCompositionMsg squareM) :=
  ⟨by decide,
   reverse_composed_second_checked_first Nat.succ natTy natTy absM squareM 7
     (by decide)⟩

end Semdag
